import Mathlib

/-!
Verification of the easybuild-easyblocks core: the generic
configure/make easyblock (`easybuild/easyblocks/generic/configuremake.py`)
and the ELPA specialization (`easybuild/easyblocks/e/elpa.py`).

The Python modules are shallowly embedded: every Lean definition mirrors
one function or expression of the source, with external collaborators
(filesystem, download primitive, checksum primitive, CPU-feature probe,
the framework's configuration object) passed in explicitly as data.
-/

namespace EasyBlocks

/-! Section: ELPA data model (`elpa.py`) -/

/-- Source line 37: `ELPA_CPU_FEATURE_FLAGS = ['avx', 'avx2', 'avx512f', 'vsx', 'sse4_2']`. -/
def ELPA_CPU_FEATURE_FLAGS : List String := ["avx", "avx2", "avx512f", "vsx", "sse4_2"]

/-- The per-feature tri-state attributes set on the easyblock instance by
`EB_ELPA.__init__` (one attribute per recognized CPU feature, value drawn
from the `use_<feature>` easyconfig parameters): `none` is Python `None`
(auto), `some true` / `some false` are explicit enable / disable. -/
structure FeatureState where
  avx : Option Bool
  avx2 : Option Bool
  avx512f : Option Bool
  vsx : Option Bool
  sse4_2 : Option Bool
deriving DecidableEq, Fintype

/-- Python `getattr(self, flag)` for the five recognized feature names
(line 100 and lines 131/138/143 of `elpa.py`). -/
def getattrFeature (s : FeatureState) (flag : String) : Option Bool :=
  if flag = "avx" then s.avx
  else if flag = "avx2" then s.avx2
  else if flag = "avx512f" then s.avx512f
  else if flag = "vsx" then s.vsx
  else if flag = "sse4_2" then s.sse4_2
  else none

/-- Python `setattr(self, flag, v)` for the five recognized feature names
(lines 76 and 102 of `elpa.py`). -/
def setattrFeature (s : FeatureState) (flag : String) (v : Option Bool) : FeatureState :=
  if flag = "avx" then { s with avx := v }
  else if flag = "avx2" then { s with avx2 := v }
  else if flag = "avx512f" then { s with avx512f := v }
  else if flag = "vsx" then { s with vsx := v }
  else if flag = "sse4_2" then { s with sse4_2 := v }
  else s

/-- Python truthiness of a tri-state value: `if getattr(self, flag):` is
taken only when the value is `True` (`None` and `False` are falsy). -/
def pyTruthy (o : Option Bool) : Bool :=
  match o with
  | some b => b
  | none => false

/-! Section: ELPA initialisation (`EB_ELPA.__init__`, lines 68-102) -/

/-- Lines 72-76 of `elpa.py`: for each recognized feature flag, fail if an
attribute with that name already exists on the instance, otherwise set it.
The attribute-name universe is modelled as a list of names; `setattr` adds
the flag's name to it.  The error message is the literal string the source
passes to `EasyBuildError` (its `%s` placeholder is never filled in). -/
def elpaAttrStep (attrs : List String) (flag : String) : Except String (List String) :=
  if flag ∈ attrs then
    Except.error "EasyBlock attribute '%s' already exists"
  else
    Except.ok (attrs ++ [flag])

/-- Lines 72-76 of `elpa.py`: the whole attribute-installation loop, one
`elpaAttrStep` per recognized feature flag, aborting with the error at the
first collision. -/
def elpaSetFeatureAttrs (existingAttrs : List String) : Except String (List String) :=
  ELPA_CPU_FEATURE_FLAGS.foldlM elpaAttrStep existingAttrs

/-- One iteration of the auto-detection loop (lines 98-102 of `elpa.py`):
enable a feature only if it is still undecided (`None`) and its name
appears in the available-CPU-feature list. -/
def elpaDetectStep (availCpuFeatures : List String) (st : FeatureState) (flag : String) :
    FeatureState :=
  if getattrFeature st flag = none ∧ flag ∈ availCpuFeatures then
    setattrFeature st flag (some true)
  else st

/-- Lines 80-102 of `elpa.py`: the auto-detection policy run at
initialisation.  `autoDetect` is the `auto_detect_cpu_features` easyconfig
option; `optarchGeneric` is whether `build_option('optarch')` equals
`OPTARCH_GENERIC`; `availCpuFeatures` is what `get_cpu_features()`
returned; `s` holds the user-declared tri-states set just before. -/
def elpaAutoDetect (autoDetect : Bool) (optarchGeneric : Bool)
    (availCpuFeatures : List String) (s : FeatureState) : FeatureState :=
  if autoDetect then
    let cpu_features := if optarchGeneric then ([] : List String) else ELPA_CPU_FEATURE_FLAGS
    let avail_cpu_features :=
      if "avx1.0" ∈ availCpuFeatures then availCpuFeatures ++ ["avx"] else availCpuFeatures
    cpu_features.foldl (elpaDetectStep avail_cpu_features) s
  else s

/-! Section: ELPA feature-to-flag mapping and option derivation
(`EB_ELPA.extra_options` lines 54-60, `EB_ELPA.run_all_steps` lines 104-178) -/

/-- Lines 54-60 of `elpa.py`: the configure-flag names associated with each
recognized CPU feature. -/
def elpaFeatureConfFlags (flag : String) : List String :=
  if flag = "sse4_2" then ["sse", "sse-assembly"]
  else if flag = "avx512f" then ["avx512"]
  else [flag]

/-- Lines 125-146 of `elpa.py`: the feature-derived configure-option
fragments, in emission order.  Each `self.cfg.update('configopts', ...)`
call appends one fragment. -/
def featureConfigOpts (s : FeatureState) : List String :=
  ELPA_CPU_FEATURE_FLAGS.foldl
    (fun opts flag =>
      if flag = "sse4_2" then
        if pyTruthy (getattrFeature s flag) then
          opts ++ ["--enable-sse", "--enable-sse-assembly"]
        else
          opts ++ ["--disable-sse", "--disable-sse-assembly"]
      else if flag = "avx512f" then
        if pyTruthy (getattrFeature s "avx512f") then opts ++ ["--enable-avx512"]
        else opts ++ ["--disable-avx512"]
      else
        if pyTruthy (getattrFeature s flag) then opts ++ ["--enable-" ++ flag]
        else opts ++ ["--disable-" ++ flag])
    []

/-- Modelled from the spec: the external framework's configuration object
(`self.cfg.update(key, fragment)` for a string-valued option) has
list-append semantics, accumulating space-separated option fragments. -/
def cfgUpdate (prev item : String) : String :=
  if prev = "" then item else prev ++ " " ++ item

/-- The easyconfig-declared options and toolchain/policy toggles consumed by
`EB_ELPA.run_all_steps`: `pic` is `self.toolchain.options['pic']`, the
`with_*` fields are the ELPA-specific easyconfig parameters, and
`configopts0` / `buildopts0` are the `configopts` / `buildopts` strings as
declared in the easyconfig file before `run_all_steps` appends to them. -/
structure ElpaCfg where
  pic : Bool
  with_shared : Bool
  with_generic_kernel : Bool
  with_single : Bool
  with_openmp : Bool
  configopts0 : String
  buildopts0 : String

/-- Lines 113-146 of `elpa.py`: the configure-option fragments common to all
build variants, in the order the source appends them (toolchain pic flag,
shared, generic kernel, single precision, then the feature-derived flags). -/
def commonConfigOptFrags (cfg : ElpaCfg) (s : FeatureState) : List String :=
  (if cfg.pic then ["--with-pic"] else []) ++
  (if cfg.with_shared then ["--enable-shared"] else []) ++
  (if cfg.with_generic_kernel then ["--enable-generic"] else []) ++
  (if cfg.with_single then ["--enable-single-precision"] else []) ++
  featureConfigOpts s

/-- Line 154 of `elpa.py`: `common_config_opts = self.cfg['configopts']`,
the accumulated configure-option string after the common fragments were
appended to the easyconfig-declared `configopts`. -/
def commonConfigOpts (cfg : ElpaCfg) (s : FeatureState) : String :=
  (commonConfigOptFrags cfg s).foldl cfgUpdate cfg.configopts0

/-- Lines 149-155 of `elpa.py`: `common_build_opts` is the easyconfig
`buildopts` with `V=1` appended. -/
def commonBuildOpts (cfg : ElpaCfg) : String :=
  cfgUpdate cfg.buildopts0 "V=1"

/-- Lines 160-162 of `elpa.py`: `with_omp_opts = [False]`, with `True`
appended when the `with_openmp` easyconfig option is set. -/
def withOmpOpts (cfg : ElpaCfg) : List Bool :=
  if cfg.with_openmp then [false, true] else [false]

/-- Lines 157-172 of `elpa.py`: `self.cfg['configopts']` after the reset to
`[]` and the per-variant loop: one entry `<omp flag> <common configopts>`
per concurrency choice. -/
def elpaConfigOptsList (cfg : ElpaCfg) (s : FeatureState) : List String :=
  (withOmpOpts cfg).map
    (fun with_omp =>
      (if with_omp then "--enable-openmp" else "--disable-openmp") ++ " " ++
        commonConfigOpts cfg s)

/-- Lines 157-173 of `elpa.py`: `self.cfg['buildopts']` after the reset to
`[]` and the per-variant loop: one entry `common_build_opts` per
concurrency choice. -/
def elpaBuildOptsList (cfg : ElpaCfg) (s : FeatureState) : List String :=
  (withOmpOpts cfg).map (fun _ => commonBuildOpts cfg)

/-! Section: ConfigureMake data model (`configuremake.py`) -/

/-- Source line 52: the marker string indicating that a configure script was
generated by Autoconf. -/
def AUTOCONF_GENERATED_MSG : String := "Generated by GNU Autoconf"

/-- Source line 59: pinned SHA256 checksum for the config.guess script. -/
def CONFIG_GUESS_SHA256 : String :=
  "c02eb9cc55c86cfd1e9a794e548d25db5c9539e7b2154beb649bc6e2cbffc74c"

/-- Boolean substring test (`pat in s` in Python, used at line 205 on the
configure script's contents). -/
def strContainsSub (s pat : String) : Bool :=
  (List.range (s.toList.length + 1)).any
    (fun i => (s.toList.drop i).take pat.toList.length == pat.toList)

/-- The external collaborators consumed by `obtain_config_guess`:
`sourcePaths` is what `source_paths()` returns, `ebVersion` is
`EASYBLOCKS_VERSION`, `isFile` is `os.path.isfile`, `downloadResult` is the
value `download_file(...)` returns (`some` downloaded path, or `none` on
failure), and `checksumOk p` is `verify_checksum(p, CONFIG_GUESS_SHA256)`. -/
structure ObtainEnv where
  sourcePaths : List String
  ebVersion : String
  isFile : String → Bool
  downloadResult : Option String
  checksumOk : String → Bool

/-- Line 101: `os.path.join('generic', 'eb_v%s' % EASYBLOCKS_VERSION,
'ConfigureMake')`. -/
def sourcepathSubdir (ebVersion : String) : String :=
  "generic/eb_v" ++ ebVersion ++ "/ConfigureMake"

/-- Line 107/115: the candidate `config.guess` path under one source-path
root. -/
def candConfigGuessPath (env : ObtainEnv) (path : String) : String :=
  path ++ "/" ++ sourcepathSubdir env.ebVersion ++ "/config.guess"

/-- The observable outcome of one `obtain_config_guess` call: the returned
path (or `none`), the files removed via `remove_file`, the warnings logged
via `self.log.warning`, and the files that had execute permission bits
added via `adjust_permissions`. -/
structure ObtainResult where
  result : Option String
  removed : List String
  warnings : List String
  execPermsAdded : List String
deriving DecidableEq

/-- Lines 86-132 of `configuremake.py`: locate or download an up-to-date
`config.guess`.  The local search iterates `eb_source_paths` (the global
source-path configuration), taking the first root whose candidate path is a
file; only if none is found is a download attempted, whose SHA256 checksum
is verified — on mismatch the file is removed, a warning logged, and `none`
returned (the function returns normally; no exception is raised on this
path). -/
def obtain_config_guess (env : ObtainEnv) (download_source_path : Option String)
    (search_source_paths : Option (List String)) : ObtainResult :=
  let eb_source_paths := env.sourcePaths
  let download_source_path := download_source_path.getD (eb_source_paths.headD "")
  let _search_source_paths := search_source_paths.getD eb_source_paths
  let config_guess_path :=
    (eb_source_paths.find? (fun p => env.isFile (candConfigGuessPath env p))).map
      (candConfigGuessPath env)
  match config_guess_path with
  | some p => { result := some p, removed := [], warnings := [], execPermsAdded := [] }
  | none =>
    let cand_config_guess_path := candConfigGuessPath env download_source_path
    match env.downloadResult with
    | some downloaded_path =>
      if env.checksumOk downloaded_path then
        { result := some downloaded_path, removed := [], warnings := [],
          execPermsAdded := [downloaded_path] }
      else
        { result := none, removed := [downloaded_path],
          warnings := ["Checksum failed for downloaded file " ++ downloaded_path ++
            ", not using it!"],
          execPermsAdded := [] }
    | none =>
      { result := none, removed := [],
        warnings := ["Failed to download recent config.guess to " ++
          cand_config_guess_path ++ " for use with ConfigureMake easyblock (if needed)"],
        execPermsAdded := [] }

/-! Section: ConfigureMake configure step (`configure_step`, lines 170-237) -/

/-- The easyconfig options consumed by `configure_step`.
`configure_cmd_pfx` embeds the source's `configure_cmd_prefix` option
(string glued before `./configure`); `prefix_opt`, `tar_config_opts` and
`build_type` are the equally named options, and `preconfigopts` /
`configopts` are the declared option strings. -/
structure CMCfg where
  configure_cmd_pfx : String
  prefix_opt : Option String
  tar_config_opts : Bool
  build_type : Option String
  preconfigopts : String
  configopts : String

/-- The external collaborators consumed by `configure_step`: `obtainEnv`
backs the lazy `obtain_config_guess` call, `pathExists` is
`os.path.exists`, `fileContents` is `read_file`, `configGuessRunOutput` is
the first component of `run_cmd(self.config_guess, ...)`, and `installdir`
is `self.installdir`. -/
structure ConfigureEnv where
  obtainEnv : ObtainEnv
  pathExists : String → Bool
  fileContents : String → String
  configGuessRunOutput : String
  installdir : String

/-- A single-quote character, used in the tar-override assignments. -/
def sq : String := String.singleton (Char.ofNat 39)

/-- Lines 186-192 of `configuremake.py`: the `key='value'` fragments
appended to `preconfigopts` when `tar_config_opts` is set, in the
dictionary's insertion order. -/
def tarVarOpts : List String :=
  ["am__tar=" ++ sq ++ "tar chf - \"$$tardir\"" ++ sq,
   "am__untar=" ++ sq ++ "tar xf -" ++ sq,
   "am_cv_prog_tar_ustar=" ++ sq ++ "easybuild_avoid_ustar_testing" ++ sq]

/-- Lines 182-192: the effective `preconfigopts` string after the optional
tar-override injection. -/
def effPreconfigopts (cfg : CMCfg) : String :=
  if cfg.tar_config_opts then tarVarOpts.foldl cfgUpdate cfg.preconfigopts
  else cfg.preconfigopts

/-- Lines 176-180: the `configure_cmd_prefix` option, when non-empty,
overrules the `cmd_prefix` argument. -/
def effCmdPfx (cfg : CMCfg) (cmd_pfx : String) : String :=
  if cfg.configure_cmd_pfx ≠ "" then cfg.configure_cmd_pfx else cmd_pfx

/-- Lines 194-196: the prefix option defaults to `--prefix=` when the
`prefix_opt` easyconfig option is `None`. -/
def effPrefixOpt (cfg : CMCfg) : String :=
  cfg.prefix_opt.getD "--prefix="

/-- Line 198: `configure_command = cmd_prefix + './configure'`. -/
def configureCommand (cfg : CMCfg) (cmd_pfx : String) : String :=
  effCmdPfx cfg cmd_pfx ++ "./configure"

/-- Lines 210-213: `self.config_guess`, fetched lazily via
`obtain_config_guess` when still `None` at configure time. -/
def resolvedConfigGuess (env : ConfigureEnv) (config_guess : Option String) : Option String :=
  match config_guess with
  | some p => some p
  | none => (obtain_config_guess env.obtainEnv none none).result

/-- Lines 204-225 of `configuremake.py`: the `build_type_option` fragment.
It is non-empty only when the configure script exists and its contents
contain the Autoconf marker; in that case an explicitly declared
`build_type` is used directly, and otherwise the `config.guess` script
(when available) is run and its trimmed output used — when it is not
available, a warning is printed and no `--build=` option is set. -/
def buildTypeOption (env : ConfigureEnv) (cfg : CMCfg) (cmd_pfx : String)
    (config_guess : Option String) : String :=
  if env.pathExists (configureCommand cfg cmd_pfx) = true ∧
      strContainsSub (env.fileContents (configureCommand cfg cmd_pfx))
        AUTOCONF_GENERATED_MSG = true then
    match cfg.build_type with
    | some bt => "--build=" ++ bt
    | none =>
      match resolvedConfigGuess env config_guess with
      | none => ""
      | some _ => "--build=" ++ env.configGuessRunOutput.trim
  else ""

/-- Lines 227-233: the ordered components of the configure command handed to
`' '.join`. -/
def configureCmdParts (env : ConfigureEnv) (cfg : CMCfg) (cmd_pfx : String)
    (config_guess : Option String) : List String :=
  [effPreconfigopts cfg,
   configureCommand cfg cmd_pfx,
   effPrefixOpt cfg ++ env.installdir,
   buildTypeOption env cfg cmd_pfx config_guess,
   cfg.configopts]

/-- Lines 227-233: the assembled configure command string,
`' '.join([preconfigopts, configure_command, prefix_opt + installdir,
build_type_option, configopts])`. -/
def configure_cmd (env : ConfigureEnv) (cfg : CMCfg) (cmd_pfx : String)
    (config_guess : Option String) : String :=
  String.intercalate " " (configureCmdParts env cfg cmd_pfx config_guess)

/-! Section: Concrete sample inputs used to instantiate the theorems -/

/-- A sample feature tri-state assignment: `avx` enabled, `avx2` disabled,
`avx512f` and `vsx` undecided, `sse4_2` enabled. -/
def sampleState : FeatureState :=
  { avx := some true, avx2 := some false, avx512f := none, vsx := none, sse4_2 := some true }

/-- A sample ELPA configuration with OpenMP and shared libraries enabled. -/
def sampleElpaCfg : ElpaCfg :=
  { pic := true, with_shared := true, with_generic_kernel := false, with_single := true,
    with_openmp := true, configopts0 := "", buildopts0 := "" }

/-- A sample environment for `obtain_config_guess` in which no local copy
exists, the download succeeds, and the checksum verification fails. -/
def obtainEnvW : ObtainEnv :=
  { sourcePaths := ["/tmp/sources"], ebVersion := "3.9.1", isFile := fun _ => false,
    downloadResult := some "/tmp/sources/generic/eb_v3.9.1/ConfigureMake/config.guess",
    checksumOk := fun _ => false }

/-- A sample configure-step environment whose configure script exists and is
Autoconf-generated. -/
def confEnvW : ConfigureEnv :=
  { obtainEnv := obtainEnvW, pathExists := fun _ => true,
    fileContents := fun _ => AUTOCONF_GENERATED_MSG,
    configGuessRunOutput := "x86_64-pc-linux-gnu\n", installdir := "/opt/app" }

/-- A sample configure-step environment whose configure script exists but is
not Autoconf-generated (no marker in its contents). -/
def confEnvNoMarker : ConfigureEnv :=
  { obtainEnv := obtainEnvW, pathExists := fun _ => true,
    fileContents := fun _ => "#!/bin/sh",
    configGuessRunOutput := "x86_64-pc-linux-gnu\n", installdir := "/opt/app" }

/-- A sample ConfigureMake configuration with every option of interest
non-empty and an explicitly declared build type. -/
def sampleCMCfg : CMCfg :=
  { configure_cmd_pfx := "env FC=gfortran ", prefix_opt := none, tar_config_opts := false,
    build_type := some "x86_64-pc-linux-gnu", preconfigopts := "autoreconf &&",
    configopts := "--enable-shared" }

/-- A sample ConfigureMake configuration with no declared build type. -/
def sampleCMCfgNoBT : CMCfg :=
  { configure_cmd_pfx := "", prefix_opt := none, tar_config_opts := false,
    build_type := none, preconfigopts := "", configopts := "--enable-shared" }

/-! Section: Helper lemmas -/

theorem elpaAttrStep_foldlM_error (flags : List String) (attrs : List String) (f : String)
    (hf : f ∈ flags) (hmem : f ∈ attrs) :
    flags.foldlM elpaAttrStep attrs =
      Except.error "EasyBlock attribute '%s' already exists" := by
  induction flags generalizing attrs with
  | nil => cases hf
  | cons g gs ih =>
    rcases List.mem_cons.mp hf with h | h
    · subst h
      simp only [List.foldlM_cons, elpaAttrStep, if_pos hmem]
      rfl
    · by_cases hg : g ∈ attrs
      · simp only [List.foldlM_cons, elpaAttrStep, if_pos hg]
        rfl
      · simp only [List.foldlM_cons, elpaAttrStep, if_neg hg]
        exact ih (attrs ++ [g]) h (List.mem_append_left _ hmem)

theorem elpaDetectStep_congr (a1 a2 : List String) (h : ∀ x, x ∈ a1 ↔ x ∈ a2)
    (st : FeatureState) (flag : String) :
    elpaDetectStep a1 st flag = elpaDetectStep a2 st flag := by
  simp only [elpaDetectStep, h flag]

theorem foldl_elpaDetectStep_congr (flags : List String) (a1 a2 : List String)
    (h : ∀ x, x ∈ a1 ↔ x ∈ a2) (s : FeatureState) :
    flags.foldl (elpaDetectStep a1) s = flags.foldl (elpaDetectStep a2) s := by
  induction flags generalizing s with
  | nil => rfl
  | cons f fs ih =>
    simp only [List.foldl_cons]
    rw [elpaDetectStep_congr a1 a2 h s f]
    exact ih _

theorem elpaDetectStep_avx_other (a : List String) (st : FeatureState) (flag : String)
    (hflag : flag ∈ ["avx2", "avx512f", "vsx", "sse4_2"]) :
    (elpaDetectStep a st flag).avx = st.avx := by
  fin_cases hflag <;> (unfold elpaDetectStep; split <;> rfl)

theorem foldl_detect_tail_avx (a : List String) (s : FeatureState) :
    (["avx2", "avx512f", "vsx", "sse4_2"].foldl (elpaDetectStep a) s).avx = s.avx := by
  simp only [List.foldl_cons, List.foldl_nil]
  rw [elpaDetectStep_avx_other a _ "sse4_2" (by decide),
      elpaDetectStep_avx_other a _ "vsx" (by decide),
      elpaDetectStep_avx_other a _ "avx512f" (by decide),
      elpaDetectStep_avx_other a _ "avx2" (by decide)]

theorem elpaAutoDetect_avx (avail : List String) (s : FeatureState) :
    (elpaAutoDetect true false avail s).avx =
      if s.avx = none ∧ ("avx" ∈ avail ∨ "avx1.0" ∈ avail) then some true else s.avx := by
  have h0 : elpaAutoDetect true false avail s =
      ["avx2", "avx512f", "vsx", "sse4_2"].foldl
        (elpaDetectStep (if "avx1.0" ∈ avail then avail ++ ["avx"] else avail))
        (elpaDetectStep (if "avx1.0" ∈ avail then avail ++ ["avx"] else avail) s "avx") := rfl
  rw [h0, foldl_detect_tail_avx]
  have hmem : ("avx" ∈ (if "avx1.0" ∈ avail then avail ++ ["avx"] else avail)) ↔
      ("avx" ∈ avail ∨ "avx1.0" ∈ avail) := by
    by_cases h10 : "avx1.0" ∈ avail <;> simp [h10]
  unfold elpaDetectStep
  by_cases hc : getattrFeature s "avx" = none ∧
      "avx" ∈ (if "avx1.0" ∈ avail then avail ++ ["avx"] else avail)
  · rw [if_pos hc, if_pos ⟨hc.1, hmem.mp hc.2⟩]
    rfl
  · rw [if_neg hc, if_neg (fun hc2 => hc ⟨hc2.1, hmem.mpr hc2.2⟩)]

/-! Section: Claim theorems -/

/-- C1: for every combination of resolved tri-states of the five recognized
CPU features, the derived configure-option list contains, for each mapped
flag name, exactly one of `--enable-<flag>` / `--disable-<flag>` and never
both: enable when the tri-state is `True`, disable when it is `False` or
still `None`. -/
theorem elpa_flag_pairs_exclusive (s : FeatureState) (f : String)
    (hf : f ∈ ELPA_CPU_FEATURE_FLAGS) (n : String) (hn : n ∈ elpaFeatureConfFlags f) :
    (pyTruthy (getattrFeature s f) = true →
      ("--enable-" ++ n) ∈ featureConfigOpts s ∧ ("--disable-" ++ n) ∉ featureConfigOpts s) ∧
    (pyTruthy (getattrFeature s f) = false →
      ("--disable-" ++ n) ∈ featureConfigOpts s ∧ ("--enable-" ++ n) ∉ featureConfigOpts s) := by
  revert hn
  revert n
  revert hf
  revert f
  revert s
  set_option maxRecDepth 8192 in decide

/-- Witness for C1 at a concrete state and feature. -/
theorem elpa_flag_pairs_exclusive_witness :
    (pyTruthy (getattrFeature sampleState "avx") = true →
      ("--enable-" ++ "avx") ∈ featureConfigOpts sampleState ∧
      ("--disable-" ++ "avx") ∉ featureConfigOpts sampleState) ∧
    (pyTruthy (getattrFeature sampleState "avx") = false →
      ("--disable-" ++ "avx") ∈ featureConfigOpts sampleState ∧
      ("--enable-" ++ "avx") ∉ featureConfigOpts sampleState) :=
  elpa_flag_pairs_exclusive sampleState "avx" (by decide) "avx" (by decide)

/-- C2: with `with_openmp` disabled the per-variant configure-option list is
exactly the one `--disable-openmp` entry; with it enabled it is exactly the
two entries `[--disable-openmp …, --enable-openmp …]`, both carrying the
common configure options; and the build-option list has one entry per
configure-option entry, each equal to the common build options. -/
theorem elpa_dual_variant_expansion (cfg : ElpaCfg) (s : FeatureState) :
    (cfg.with_openmp = false →
      elpaConfigOptsList cfg s = ["--disable-openmp " ++ commonConfigOpts cfg s]) ∧
    (cfg.with_openmp = true →
      elpaConfigOptsList cfg s =
        ["--disable-openmp " ++ commonConfigOpts cfg s,
         "--enable-openmp " ++ commonConfigOpts cfg s]) ∧
    elpaBuildOptsList cfg s = (elpaConfigOptsList cfg s).map (fun _ => commonBuildOpts cfg) ∧
    (elpaBuildOptsList cfg s).length = (elpaConfigOptsList cfg s).length := by
  refine ⟨fun h => ?_, fun h => ?_, ?_, ?_⟩
  · unfold elpaConfigOptsList withOmpOpts
    rw [h]
    rfl
  · unfold elpaConfigOptsList withOmpOpts
    rw [h]
    rfl
  · unfold elpaBuildOptsList elpaConfigOptsList withOmpOpts
    cases hcase : cfg.with_openmp <;> rfl
  · unfold elpaBuildOptsList elpaConfigOptsList withOmpOpts
    cases hcase : cfg.with_openmp <;> rfl

/-- Witness for C2 at a concrete configuration with OpenMP enabled. -/
theorem elpa_dual_variant_expansion_witness :
    elpaConfigOptsList sampleElpaCfg sampleState =
      ["--disable-openmp " ++ commonConfigOpts sampleElpaCfg sampleState,
       "--enable-openmp " ++ commonConfigOpts sampleElpaCfg sampleState] :=
  (elpa_dual_variant_expansion sampleElpaCfg sampleState).2.1 rfl

/-- C5: when the generic-architecture build mode (`--optarch=GENERIC`) is
active and `auto_detect_cpu_features` is enabled, initialisation leaves
every feature tri-state unchanged from its user-declared value, no matter
what CPU features the host reports. -/
theorem elpa_generic_mode_no_auto_enable (availCpuFeatures : List String) (s : FeatureState) :
    elpaAutoDetect true true availCpuFeatures s = s ∧
    ∀ flag, getattrFeature (elpaAutoDetect true true availCpuFeatures s) flag =
      getattrFeature s flag := by
  have h : elpaAutoDetect true true availCpuFeatures s = s := rfl
  exact ⟨h, fun flag => by rw [h]⟩

/-- C6: the feature-to-flag mapping sends `sse4_2` to `sse`/`sse-assembly`,
`avx512f` to `avx512`, and every other recognized feature to itself; with
`sse4_2` enabled and `avx512f` auto-but-undetected, the derived options
include `--enable-sse`, `--enable-sse-assembly` and `--disable-avx512`. -/
theorem elpa_feature_flag_mapping :
    elpaFeatureConfFlags "sse4_2" = ["sse", "sse-assembly"] ∧
    elpaFeatureConfFlags "avx512f" = ["avx512"] ∧
    (∀ f ∈ ELPA_CPU_FEATURE_FLAGS, f ≠ "sse4_2" → f ≠ "avx512f" →
      elpaFeatureConfFlags f = [f]) ∧
    ("--enable-sse" ∈ featureConfigOpts
        (elpaAutoDetect true false ["sse4_2"]
          { avx := none, avx2 := none, avx512f := none, vsx := none, sse4_2 := some true }) ∧
     "--enable-sse-assembly" ∈ featureConfigOpts
        (elpaAutoDetect true false ["sse4_2"]
          { avx := none, avx2 := none, avx512f := none, vsx := none, sse4_2 := some true }) ∧
     "--disable-avx512" ∈ featureConfigOpts
        (elpaAutoDetect true false ["sse4_2"]
          { avx := none, avx2 := none, avx512f := none, vsx := none, sse4_2 := some true })) := by
  decide

/-- C7: for auto-detection purposes, a host feature set containing `avx1.0`
behaves exactly as if `avx` were also present, and an auto-state `avx`
tri-state is enabled exactly when `avx` or `avx1.0` is reported. -/
theorem elpa_avx_aliasing (avail : List String) (s : FeatureState) :
    ("avx1.0" ∈ avail →
      elpaAutoDetect true false avail s = elpaAutoDetect true false (avail ++ ["avx"]) s) ∧
    (s.avx = none →
      ((elpaAutoDetect true false avail s).avx = some true ↔
        ("avx" ∈ avail ∨ "avx1.0" ∈ avail))) := by
  constructor
  · intro h10
    show List.foldl _ s _ = List.foldl _ s _
    have h1 : (if "avx1.0" ∈ avail then avail ++ ["avx"] else avail) = avail ++ ["avx"] :=
      if_pos h10
    have h2 : (if "avx1.0" ∈ avail ++ ["avx"] then (avail ++ ["avx"]) ++ ["avx"]
        else avail ++ ["avx"]) = (avail ++ ["avx"]) ++ ["avx"] :=
      if_pos (List.mem_append_left _ h10)
    rw [h1, h2]
    apply foldl_elpaDetectStep_congr
    intro x
    simp only [List.mem_append, List.mem_singleton]
    tauto
  · intro ha
    rw [elpaAutoDetect_avx avail s]
    by_cases hm : "avx" ∈ avail ∨ "avx1.0" ∈ avail
    · rw [if_pos ⟨ha, hm⟩]
      simp [hm]
    · rw [if_neg (fun hc => hm hc.2), ha]
      simp [hm]

/-- Witness for C7 at a concrete host feature set containing only
`avx1.0`. -/
theorem elpa_avx_aliasing_witness :
    elpaAutoDetect true false ["avx1.0"] sampleState =
      elpaAutoDetect true false (["avx1.0"] ++ ["avx"]) sampleState ∧
    ((elpaAutoDetect true false ["avx1.0"]
        { avx := none, avx2 := none, avx512f := none, vsx := none, sse4_2 := none }).avx =
        some true ↔
      ("avx" ∈ ["avx1.0"] ∨ "avx1.0" ∈ ["avx1.0"])) :=
  ⟨(elpa_avx_aliasing ["avx1.0"] sampleState).1 (by decide),
   (elpa_avx_aliasing ["avx1.0"]
      { avx := none, avx2 := none, avx512f := none, vsx := none, sse4_2 := none }).2 rfl⟩

/-- C8: if any recognized CPU feature name collides with an attribute that
already exists on the easyblock instance, the attribute-installation loop
of ELPA initialisation fails with the `EasyBuildError` message. -/
theorem elpa_attr_collision_error (existingAttrs : List String)
    (h : ∃ f ∈ ELPA_CPU_FEATURE_FLAGS, f ∈ existingAttrs) :
    elpaSetFeatureAttrs existingAttrs =
      Except.error "EasyBlock attribute '%s' already exists" := by
  obtain ⟨f, hf, hmem⟩ := h
  exact elpaAttrStep_foldlM_error ELPA_CPU_FEATURE_FLAGS existingAttrs f hf hmem

/-- Witness for C8: an instance that already has an `avx2` attribute. -/
theorem elpa_attr_collision_error_witness :
    elpaSetFeatureAttrs ["cfg", "avx2", "log"] =
      Except.error "EasyBlock attribute '%s' already exists" :=
  elpa_attr_collision_error ["cfg", "avx2", "log"] ⟨"avx2", by decide, by decide⟩

/-- C9: `obtain_config_guess` ignores its `search_source_paths` argument:
for any two values of it (same environment otherwise), the outcome is
identical, because the local search iterates the globally configured source
paths. -/
theorem obtain_config_guess_ignores_search_paths (env : ObtainEnv)
    (download_source_path : Option String) (ssp1 ssp2 : Option (List String)) :
    obtain_config_guess env download_source_path ssp1 =
      obtain_config_guess env download_source_path ssp2 := rfl

/-- C4: the configure command is the space-join, in this exact order, of the
pre-configure options, the command prefix glued to `./configure`, the
prefix option (defaulting to `--prefix=`) glued to the install directory,
the `--build=<triplet>` fragment, and the trailing configure options — so
the prefix option sits immediately after the configure executable and
before the build-type and trailing options. -/
theorem configure_cmd_assembly_order (env : ConfigureEnv) (cfg : CMCfg) (cmd_pfx : String)
    (config_guess : Option String) (bt : String)
    (hpre : cfg.preconfigopts ≠ "") (htar : cfg.tar_config_opts = false)
    (hcp : cfg.configure_cmd_pfx ≠ "") (hbt : cfg.build_type = some bt)
    (hops : cfg.configopts ≠ "")
    (hex : env.pathExists (cfg.configure_cmd_pfx ++ "./configure") = true)
    (hmark : strContainsSub (env.fileContents (cfg.configure_cmd_pfx ++ "./configure"))
      AUTOCONF_GENERATED_MSG = true) :
    configureCmdParts env cfg cmd_pfx config_guess =
      [cfg.preconfigopts, cfg.configure_cmd_pfx ++ "./configure",
       cfg.prefix_opt.getD "--prefix=" ++ env.installdir, "--build=" ++ bt,
       cfg.configopts] ∧
    configure_cmd env cfg cmd_pfx config_guess =
      String.intercalate " "
        [cfg.preconfigopts, cfg.configure_cmd_pfx ++ "./configure",
         cfg.prefix_opt.getD "--prefix=" ++ env.installdir, "--build=" ++ bt,
         cfg.configopts] := by
  have hcc : configureCommand cfg cmd_pfx = cfg.configure_cmd_pfx ++ "./configure" := by
    unfold configureCommand effCmdPfx
    rw [if_pos hcp]
  have hbto : buildTypeOption env cfg cmd_pfx config_guess = "--build=" ++ bt := by
    unfold buildTypeOption
    rw [if_pos ⟨by rw [hcc]; exact hex, by rw [hcc]; exact hmark⟩, hbt]
  have hpreeq : effPreconfigopts cfg = cfg.preconfigopts := by
    unfold effPreconfigopts
    rw [htar]
    rfl
  have hparts : configureCmdParts env cfg cmd_pfx config_guess =
      [cfg.preconfigopts, cfg.configure_cmd_pfx ++ "./configure",
       cfg.prefix_opt.getD "--prefix=" ++ env.installdir, "--build=" ++ bt,
       cfg.configopts] := by
    unfold configureCmdParts
    rw [hpreeq, hcc, hbto]
    rfl
  exact ⟨hparts, by unfold configure_cmd; rw [hparts]⟩

/-- Witness for C4 at a concrete environment and configuration. -/
theorem configure_cmd_assembly_order_witness :
    configureCmdParts confEnvW sampleCMCfg "" none =
      ["autoreconf &&", "env FC=gfortran ./configure", "--prefix=/opt/app",
       "--build=x86_64-pc-linux-gnu", "--enable-shared"] ∧
    configure_cmd confEnvW sampleCMCfg "" none =
      String.intercalate " "
        ["autoreconf &&", "env FC=gfortran ./configure", "--prefix=/opt/app",
         "--build=x86_64-pc-linux-gnu", "--enable-shared"] :=
  configure_cmd_assembly_order confEnvW sampleCMCfg "" none "x86_64-pc-linux-gnu"
    (by decide) rfl (by decide) rfl (by decide) rfl (by decide)

/-- C10: a declared `build_type` yields a `--build=` fragment only when the
configure script exists and contains the Autoconf marker; when the script
is absent or lacks the marker, the build-type fragment is empty and the
assembled command carries no `--build=` component. -/
theorem declared_build_type_needs_marker (env : ConfigureEnv) (cfg : CMCfg)
    (cmd_pfx : String) (config_guess : Option String) (bt : String)
    (hbt : cfg.build_type = some bt)
    (habs : env.pathExists (configureCommand cfg cmd_pfx) = false ∨
      strContainsSub (env.fileContents (configureCommand cfg cmd_pfx))
        AUTOCONF_GENERATED_MSG = false) :
    buildTypeOption env cfg cmd_pfx config_guess = "" ∧
    configure_cmd env cfg cmd_pfx config_guess =
      String.intercalate " "
        [effPreconfigopts cfg, configureCommand cfg cmd_pfx,
         effPrefixOpt cfg ++ env.installdir, "", cfg.configopts] := by
  have hneg : ¬(env.pathExists (configureCommand cfg cmd_pfx) = true ∧
      strContainsSub (env.fileContents (configureCommand cfg cmd_pfx))
        AUTOCONF_GENERATED_MSG = true) := by
    intro hc
    rcases habs with h | h
    · rw [h] at hc
      exact Bool.false_ne_true hc.1
    · rw [h] at hc
      exact Bool.false_ne_true hc.2
  have hbto : buildTypeOption env cfg cmd_pfx config_guess = "" := by
    unfold buildTypeOption
    rw [if_neg hneg]
  refine ⟨hbto, ?_⟩
  unfold configure_cmd configureCmdParts
  rw [hbto]

/-- Witness for C10 at a concrete environment whose configure script lacks
the Autoconf marker. -/
theorem declared_build_type_needs_marker_witness :
    buildTypeOption confEnvNoMarker sampleCMCfg "" none = "" ∧
    configure_cmd confEnvNoMarker sampleCMCfg "" none =
      String.intercalate " "
        [effPreconfigopts sampleCMCfg, configureCommand sampleCMCfg "",
         effPrefixOpt sampleCMCfg ++ confEnvNoMarker.installdir, "",
         sampleCMCfg.configopts] :=
  declared_build_type_needs_marker confEnvNoMarker sampleCMCfg "" none
    "x86_64-pc-linux-gnu" rfl (Or.inr (by decide))

/-- C3: when no local `config.guess` exists and the downloaded one fails its
SHA256 check, `obtain_config_guess` removes the download, logs a warning
and returns `none` without raising; the configure step then proceeds with
an empty build-type fragment, so its assembled command carries no
`--build=` component. -/
theorem checksum_mismatch_degrades (env : ConfigureEnv) (cfg : CMCfg) (cmd_pfx : String)
    (dp : String)
    (hnolocal : ∀ p ∈ env.obtainEnv.sourcePaths,
      env.obtainEnv.isFile (candConfigGuessPath env.obtainEnv p) = false)
    (hdl : env.obtainEnv.downloadResult = some dp)
    (hck : env.obtainEnv.checksumOk dp = false)
    (hbt : cfg.build_type = none) :
    (obtain_config_guess env.obtainEnv none none).result = none ∧
    (obtain_config_guess env.obtainEnv none none).removed = [dp] ∧
    (obtain_config_guess env.obtainEnv none none).warnings ≠ [] ∧
    buildTypeOption env cfg cmd_pfx (obtain_config_guess env.obtainEnv none none).result
      = "" ∧
    configure_cmd env cfg cmd_pfx (obtain_config_guess env.obtainEnv none none).result =
      String.intercalate " "
        [effPreconfigopts cfg, configureCommand cfg cmd_pfx,
         effPrefixOpt cfg ++ env.installdir, "", cfg.configopts] := by
  have hfind : env.obtainEnv.sourcePaths.find?
      (fun p => env.obtainEnv.isFile (candConfigGuessPath env.obtainEnv p)) = none := by
    rw [List.find?_eq_none]
    intro p hp
    rw [hnolocal p hp]
    simp
  have hobt : obtain_config_guess env.obtainEnv none none =
      { result := none, removed := [dp],
        warnings := ["Checksum failed for downloaded file " ++ dp ++ ", not using it!"],
        execPermsAdded := [] } := by
    simp only [obtain_config_guess, hfind, hdl, hck, Option.map_none', Bool.false_eq_true,
      if_false]
  have hres : (obtain_config_guess env.obtainEnv none none).result = none := by
    rw [hobt]
  have hbto : buildTypeOption env cfg cmd_pfx none = "" := by
    unfold buildTypeOption
    split
    · rw [hbt]
      unfold resolvedConfigGuess
      rw [hres]
    · rfl
  refine ⟨hres, by rw [hobt], by rw [hobt]; simp, ?_, ?_⟩
  · rw [hres, hbto]
  · rw [hres]
    unfold configure_cmd configureCmdParts
    rw [hbto]

/-- Witness for C3 at a concrete environment in which the download succeeds
but its checksum verification fails. -/
theorem checksum_mismatch_degrades_witness :
    (obtain_config_guess obtainEnvW none none).result = none ∧
    (obtain_config_guess obtainEnvW none none).removed =
      ["/tmp/sources/generic/eb_v3.9.1/ConfigureMake/config.guess"] ∧
    (obtain_config_guess obtainEnvW none none).warnings ≠ [] ∧
    buildTypeOption confEnvW sampleCMCfgNoBT ""
      (obtain_config_guess obtainEnvW none none).result = "" ∧
    configure_cmd confEnvW sampleCMCfgNoBT ""
      (obtain_config_guess obtainEnvW none none).result =
      String.intercalate " "
        [effPreconfigopts sampleCMCfgNoBT, configureCommand sampleCMCfgNoBT "",
         effPrefixOpt sampleCMCfgNoBT ++ confEnvW.installdir, "",
         sampleCMCfgNoBT.configopts] :=
  checksum_mismatch_degrades confEnvW sampleCMCfgNoBT ""
    "/tmp/sources/generic/eb_v3.9.1/ConfigureMake/config.guess"
    (by decide) rfl rfl rfl

end EasyBlocks
